import Mathlib

/-!
Shallow embedding of the AutoDeploy Agent repository
(`src/src/App.tsx` and `src/src/services/githubService.ts`).

External HTTP calls are modelled by explicit environment records carrying the
responses the remote services would return; the embedded functions compute,
from the environment, exactly what the TypeScript code computes from the
corresponding `fetch` responses.  Thrown JavaScript errors are modelled by
`Except String`, carrying the error message.  React `useState` state is
modelled by an explicit `AppState` record, and each event handler of
`App.tsx` becomes a state transformer `AppState → AppState`; the sequential
`await`-based control flow of the handlers is translated statement by
statement.  `localStorage` is modelled by the `persisted` field of the state.
`LogEntry.id` (a fresh random string) and `LogEntry.timestamp` (wall-clock
time) are environment-generated and play no role in any property below, so a
log entry is modelled by its message and severity tag.
-/

namespace AutoDeploy

/-- Model of the JavaScript `String.prototype.includes` test, on `pat`
being a prefix of a character list. -/
def isPrefixChars : List Char → List Char → Bool
  | [], _ => true
  | _ :: _, [] => false
  | a :: as, b :: bs => a == b && isPrefixChars as bs

/-- `isInfixChars pat s` decides whether `pat` occurs contiguously in `s`. -/
def isInfixChars (pat : List Char) : List Char → Bool
  | [] => isPrefixChars pat []
  | c :: rest => isPrefixChars pat (c :: rest) || isInfixChars pat rest

/-- Model of JavaScript `s.includes(pat)` (substring containment). -/
def containsSubstr (s pat : String) : Bool :=
  isInfixChars pat.data s.data

/-- Model of the JavaScript blank-prompt test `!prompt.trim()`: the prompt
trims to the empty string exactly when every character is whitespace (this
covers the empty string; the JS Unicode whitespace set is wider than the
ASCII one modelled here, which no claim exercises). -/
def isBlank (s : String) : Bool :=
  s.data.all Char.isWhitespace

/-- `FileNode` from `types.ts`: a repository-relative path and text content. -/
structure FileNode where
  path : String
  content : String
deriving DecidableEq, Repr

/-- `GeneratedProject` from `types.ts`: name, description and ordered files. -/
structure GeneratedProject where
  name : String
  description : String
  files : List FileNode
deriving DecidableEq, Repr

/-- `AppConfig` from `types.ts`: the four credential/identifier strings. -/
structure AppConfig where
  githubToken : String
  vercelToken : String
  githubUsername : String
  geminiKey : String
deriving DecidableEq, Repr

/-- Severity tag of a log entry (`LogEntry['type']`). -/
inductive LogType where
  | info
  | success
  | warning
  | error
deriving DecidableEq, Repr

/-- A log entry, modelled by its message and severity tag (the random `id`
and the timestamp are environment-generated and unused by the logic). -/
structure LogEntry where
  message : String
  type : LogType
deriving DecidableEq, Repr

/-- `Step` from `types.ts`: the workflow stage of the wizard. -/
inductive Step where
  | config
  | prompt
  | generating
  | review
  | deploying
  | success
deriving DecidableEq, Repr

/-- Response of the GitHub `/user` identity lookup used by
`verifyGithubToken`: the `response.ok` flag and, when ok, `data.login`. -/
structure VerifyResp where
  ok : Bool
  login : String
deriving DecidableEq, Repr

/-- `verifyGithubToken` from `githubService.ts`: throws
`"Invalid GitHub Token"` when the response is not ok, otherwise returns the
account login from the response body. -/
def verifyGithubToken (_token : String) (r : VerifyResp) : Except String String :=
  if r.ok then Except.ok r.login else Except.error "Invalid GitHub Token"

/-- The parsed body of a successful repository-creation response (the
fields of it that `App.tsx` reads). -/
structure Repo where
  name : String
  html_url : String
deriving DecidableEq, Repr

/-- Environment for one `createRepository` call: the creation response
(`ok` flag; `err.message`, possibly absent, when not ok; parsed `Repo` body
when ok) and the response to the `verifyGithubToken` call made on the
name-collision fallback path. -/
structure CreateEnv where
  createOk : Bool
  errMessage : Option String
  repo : Repo
  verify : VerifyResp
deriving DecidableEq, Repr

/-- Stringification of `err.message` in the thrown error template
(JavaScript renders an absent field as `"undefined"`). -/
def errMessageText : Option String → String
  | some m => m
  | none => "undefined"

/-- `createRepository` from `githubService.ts`: on a non-ok response whose
`err.message` contains `"name already exists"`, re-verifies the token and
returns a repo whose URL is built from the verified login and the requested
name; on any other non-ok response throws
`"GitHub Create Repo Error: <message>"`; on an ok response returns the
parsed body. -/
def createRepository (token name _description : String) (env : CreateEnv) :
    Except String Repo :=
  if env.createOk then
    Except.ok env.repo
  else if (match env.errMessage with
           | some m => containsSubstr m "name already exists"
           | none => false) then
    match verifyGithubToken token env.verify with
    | Except.ok login =>
        Except.ok { name := name, html_url := "https://github.com/" ++ login ++ "/" ++ name }
    | Except.error e => Except.error e
  else
    Except.error ("GitHub Create Repo Error: " ++ errMessageText env.errMessage)

/-- Environment for the two requests `pushFilesToRepo` makes for one file:
whether the best-effort existence check throws, its `ok` flag and the `sha`
it returns, and the `ok` flag of the content-upload PUT. -/
structure FileResp where
  checkThrows : Bool
  checkOk : Bool
  checkSha : String
  putOk : Bool
deriving DecidableEq, Repr

/-- The `sha` value `pushFilesToRepo` ends up with for one file: `none` when
the existence check threw (swallowed) or was not ok, otherwise the returned
sha — the update-vs-create marker sent in the PUT body. -/
def shaOf (r : FileResp) : Option String :=
  if r.checkThrows then none
  else if r.checkOk then some r.checkSha
  else none

/-- Observable actions of `pushFilesToRepo`, in order: a progress-callback
invocation, an existence lookup for a path, and a content upload for a path
with its update marker.  (The base64 payload is not modelled: no property
below concerns the encoded content.) -/
inductive PushEvent where
  | progress (msg : String)
  | checkFile (path : String)
  | upload (path : String) (sha : Option String)
deriving DecidableEq, Repr

/-- The event triple of a processed file: progress callback, then the
existence lookup, then the upload carrying the update marker. -/
def fileEvents (f : FileNode) (r : FileResp) : List PushEvent :=
  [PushEvent.progress ("Pushing " ++ f.path ++ "..."),
   PushEvent.checkFile f.path,
   PushEvent.upload f.path (shaOf r)]

/-- `pushFilesToRepo` from `githubService.ts`: iterates the files in order;
for each file invokes `onProgress`, performs the best-effort existence
lookup, then the upload; throws `"Failed to upload <path>"` on the first
upload whose response is not ok, abandoning the remaining files.  The
environment assigns a `FileResp` to each iteration index, and the returned
event list is the trace of actions actually performed. -/
def pushFilesToRepo (token username repoName : String) :
    List FileNode → (Nat → FileResp) → List PushEvent × Except String Unit
  | [], _ => ([], Except.ok ())
  | f :: rest, env =>
    if (env 0).putOk then
      (fileEvents f (env 0) ++
         (pushFilesToRepo token username repoName rest (fun n => env (n + 1))).1,
       (pushFilesToRepo token username repoName rest (fun n => env (n + 1))).2)
    else
      (fileEvents f (env 0), Except.error ("Failed to upload " ++ f.path))

/-- The full trace of a push in which every upload succeeds. -/
def pushTrace : List FileNode → (Nat → FileResp) → List PushEvent
  | [], _ => []
  | f :: rest, env => fileEvents f (env 0) ++ pushTrace rest (fun n => env (n + 1))

/-- The React state of `App` in `App.tsx`, plus `persisted` modelling the
`autodeploy_config` record in `localStorage`. -/
structure AppState where
  step : Step
  config : AppConfig
  prompt : String
  logs : List LogEntry
  project : Option GeneratedProject
  deploymentUrl : Option String
  repoUrl : Option String
  isLoading : Bool
  persisted : Option AppConfig
deriving DecidableEq, Repr

/-- The initial state of the component (`useState` initialisers; nothing in
`localStorage`). -/
def initialState : AppState :=
  { step := Step.config
    config := { githubToken := "", vercelToken := "", githubUsername := "", geminiKey := "" }
    prompt := ""
    logs := []
    project := none
    deploymentUrl := none
    repoUrl := none
    isLoading := false
    persisted := none }

/-- `addLog` from `App.tsx`: appends one entry to the log sequence. -/
def addLog (s : AppState) (message : String) (t : LogType) : AppState :=
  { s with logs := s.logs ++ [{ message := message, type := t }] }

/-- `handleSaveConfig` from `App.tsx`: verifies the GitHub token; on success
merges the resolved login into the configuration, persists it, logs a
success entry and advances to the Prompt stage; on failure logs the error
and leaves the stage unchanged.  `env` is the response to the verification
request. -/
def handleSaveConfig (env : VerifyResp) (s : AppState) : AppState :=
  let s0 := { s with isLoading := true }
  match verifyGithubToken s0.config.githubToken env with
  | Except.ok username =>
      let newConfig := { s0.config with githubUsername := username }
      let s1 := { s0 with config := newConfig, persisted := some newConfig }
      let s2 := addLog s1 ("Authenticated as GitHub user: " ++ username) LogType.success
      let s3 := { s2 with step := Step.prompt }
      { s3 with isLoading := false }
  | Except.error e =>
      let s1 := addLog s0 e LogType.error
      { s1 with isLoading := false }

/-- `handleGenerate` from `App.tsx`.  The generation client
(`generateProjectCode` in `geminiService.ts`, an external collaborator of
the controller) enters through `genResult`: the project it returns, or the
message of the error it throws.  A blank prompt returns immediately with no
state change; otherwise the stage advances to Generating, the attempt is
logged, and on success the project is stored and the stage becomes Review;
on failure the error is logged and the stage reverts to Prompt. -/
def handleGenerate (genResult : Except String GeneratedProject) (s : AppState) : AppState :=
  if isBlank s.prompt then s
  else
    let s0 := { s with step := Step.generating, isLoading := true }
    let s1 := addLog s0 ("Generating project for: \"" ++ s0.prompt ++ "\"...") LogType.info
    match genResult with
    | Except.ok generated =>
        let s2 := { s1 with project := some generated }
        let s3 := addLog s2 ("Generated project: " ++ generated.name) LogType.success
        let s4 := addLog s3 ("Created " ++ toString generated.files.length ++ " files.") LogType.info
        let s5 := { s4 with step := Step.review }
        { s5 with isLoading := false }
    | Except.error e =>
        let s2 := addLog s1 e LogType.error
        let s3 := { s2 with step := Step.prompt }
        { s3 with isLoading := false }

/-- The log entries produced by the progress callback `handleDeploy` passes
to `pushFilesToRepo` (`(msg) => addLog(msg, 'info')`): one info entry per
progress event, in trace order. -/
def progressLogs (evs : List PushEvent) : List LogEntry :=
  evs.filterMap (fun ev =>
    match ev with
    | PushEvent.progress m => some { message := m, type := LogType.info }
    | _ => none)

/-- Environment for one `handleDeploy` call: the repository-creation
responses, the per-file push responses, and the outcome of the
`createVercelProject` call (the hosting client, an external collaborator;
only its success or thrown message reaches the controller). -/
structure DeployEnv where
  create : CreateEnv
  push : Nat → FileResp
  vercel : Except String Unit

/-- `handleDeploy` from `App.tsx`: requires a stored project and a resolved
account identifier; advances to Deploying; creates the repository, stores
its URL, pushes the files (each progress message logged as info), then
either triggers the hosting registration (when a Vercel token is present)
or logs a skip entry; ends in Success, and on any thrown error logs it and
reverts to Review. -/
def handleDeploy (env : DeployEnv) (s : AppState) : AppState :=
  match s.project with
  | none => s
  | some p =>
    if s.config.githubUsername = "" then s
    else
      let s0 := { s with step := Step.deploying, isLoading := true }
      let s1 := addLog s0 "Creating GitHub repository..." LogType.info
      match createRepository s1.config.githubToken p.name p.description env.create with
      | Except.error e =>
          let sE := addLog s1 e LogType.error
          { sE with step := Step.review, isLoading := false }
      | Except.ok repo =>
          let s2 := { s1 with repoUrl := some repo.html_url }
          let s3 := addLog s2 ("Repository created: " ++ repo.html_url) LogType.success
          let pushed := pushFilesToRepo s3.config.githubToken s3.config.githubUsername
                          p.name p.files env.push
          let s4 := { s3 with logs := s3.logs ++ progressLogs pushed.1 }
          match pushed.2 with
          | Except.error e =>
              let sE := addLog s4 e LogType.error
              { sE with step := Step.review, isLoading := false }
          | Except.ok _ =>
              let s5 := addLog s4 "All files pushed to GitHub." LogType.success
              if s5.config.vercelToken = "" then
                let s6 := addLog s5 "Skipping Vercel deployment (no token provided)."
                            LogType.warning
                { s6 with step := Step.success, isLoading := false }
              else
                let s6 := addLog s5 "Triggering Vercel deployment..." LogType.info
                match env.vercel with
                | Except.error e =>
                    let sE := addLog s6 e LogType.error
                    { sE with step := Step.review, isLoading := false }
                | Except.ok _ =>
                    let s7 := addLog s6 "Vercel project created/linked." LogType.success
                    let s8 := { s7 with
                                deploymentUrl := some ("https://" ++ p.name ++ ".vercel.app") }
                    let s9 := addLog s8
                        "Deployment queued. Visit https://vercel.com/dashboard to see progress."
                        LogType.warning
                    { s9 with step := Step.success, isLoading := false }

/-- The onClick of the Reset button (`App.tsx` line 214): only
`setStep(Step.PROMPT)`. -/
def resetBtn (s : AppState) : AppState :=
  { s with step := Step.prompt }

/-- The onClick of the header Settings button (`App.tsx` line 130): only
`setStep(Step.CONFIG)`. -/
def settingsBtn (s : AppState) : AppState :=
  { s with step := Step.config }

/-- The prompt textarea onChange (`setPrompt`). -/
def editPrompt (t : String) (s : AppState) : AppState :=
  { s with prompt := t }

/-- The configuration inputs' onChange handlers (`setConfig` with one field
replaced; modelled as replacing the whole record, which covers any sequence
of field edits). -/
def editConfig (c : AppConfig) (s : AppState) : AppState :=
  { s with config := c }

/-- The mount-time `useEffect`: when a configuration record is persisted,
load it and advance to the Prompt stage. -/
def loadSaved (c : AppConfig) (s : AppState) : AppState :=
  { s with config := c, step := Step.prompt }

/-- States reachable from the initial state by the controller's operations:
user edits, the mount-time load of a persisted configuration, the three
async handlers under arbitrary environments, and the two navigation
buttons. -/
inductive Reachable : AppState → Prop where
  | init : Reachable initialState
  | load {s : AppState} {c : AppConfig} :
      Reachable s → s.persisted = some c → Reachable (loadSaved c s)
  | editConfig {s : AppState} (c : AppConfig) :
      Reachable s → Reachable (AutoDeploy.editConfig c s)
  | editPrompt {s : AppState} (t : String) :
      Reachable s → Reachable (AutoDeploy.editPrompt t s)
  | saveConfig {s : AppState} (env : VerifyResp) :
      Reachable s → Reachable (handleSaveConfig env s)
  | generate {s : AppState} (genResult : Except String GeneratedProject) :
      Reachable s → Reachable (handleGenerate genResult s)
  | deploy {s : AppState} (env : DeployEnv) :
      Reachable s → Reachable (handleDeploy env s)
  | reset {s : AppState} :
      Reachable s → Reachable (resetBtn s)
  | settings {s : AppState} :
      Reachable s → Reachable (settingsBtn s)

/-- The first error thrown inside the `try` block of `handleDeploy`, when
one is thrown: the repository-creation error, else the file-upload error,
else (when a Vercel token is present) the hosting-registration error.
`none` means every applicable step succeeds. -/
def deployFirstError (cfg : AppConfig) (p : GeneratedProject) (env : DeployEnv) :
    Option String :=
  match createRepository cfg.githubToken p.name p.description env.create with
  | Except.error e => some e
  | Except.ok _ =>
    match (pushFilesToRepo cfg.githubToken cfg.githubUsername p.name p.files env.push).2 with
    | Except.error e => some e
    | Except.ok _ =>
      if cfg.vercelToken = "" then none
      else
        match env.vercel with
        | Except.error e => some e
        | Except.ok _ => none

/-- A sample generated project used to instantiate universally quantified
theorems on concrete inputs. -/
def exProject : GeneratedProject :=
  { name := "hello-world"
    description := "a hello world page"
    files := [{ path := "index.html", content := "<html></html>" }] }

/-- A sample configuration with a resolved account identifier and no Vercel
token. -/
def exConfig : AppConfig :=
  { githubToken := "tok", vercelToken := "", githubUsername := "alice", geminiKey := "" }

/-- A per-file response environment in which every existence check misses
and every upload succeeds. -/
def exPushOk : Nat → FileResp :=
  fun _ => { checkThrows := false, checkOk := false, checkSha := "", putOk := true }

/-- A creation environment in which the repository is created successfully. -/
def exCreateOk : CreateEnv :=
  { createOk := true
    errMessage := none
    repo := { name := "hello-world", html_url := "https://github.com/alice/hello-world" }
    verify := { ok := true, login := "alice" } }

/-- A deploy environment in which every step succeeds. -/
def exDeployOk : DeployEnv :=
  { create := exCreateOk, push := exPushOk, vercel := Except.ok () }

/-- A deploy environment in which repository creation succeeds and every
file upload fails. -/
def exDeployPushFail : DeployEnv :=
  { create := exCreateOk
    push := fun _ => { checkThrows := false, checkOk := false, checkSha := "", putOk := false }
    vercel := Except.ok () }

/-- A review-stage state with a stored project, a resolved identifier, no
Vercel token, and a deployment URL left over from an earlier run. -/
def exReviewState : AppState :=
  { step := Step.review
    config := exConfig
    prompt := "a hello world page"
    logs := []
    project := some exProject
    deploymentUrl := none
    repoUrl := none
    isLoading := false
    persisted := some exConfig }

/-- A prompt-stage state holding a project left over from an earlier
generation (reachable: a successful generation followed by the Reset
button). -/
def exPromptWithProject : AppState :=
  { step := Step.prompt
    config := exConfig
    prompt := "another app"
    logs := []
    project := some exProject
    deploymentUrl := none
    repoUrl := none
    isLoading := false
    persisted := some exConfig }

/-- A review-stage state like `exReviewState` but with a deployment URL
left over from an earlier deploy (reachable: a deploy with a Vercel token,
the Reset button, a new generation, clearing the token, and saving). -/
def exReviewStale : AppState :=
  { exReviewState with deploymentUrl := some "https://stale.vercel.app" }

/-- A Success-stage state holding a project and both URLs. -/
def exSuccessState : AppState :=
  { step := Step.success
    config := exConfig
    prompt := "a hello world page"
    logs := []
    project := some exProject
    deploymentUrl := some "https://hello-world.vercel.app"
    repoUrl := some "https://github.com/alice/hello-world"
    isLoading := false
    persisted := some exConfig }

/-- A per-file response environment in which the upload of the file at
index 0 succeeds and every later upload fails. -/
def exPushFail : Nat → FileResp :=
  fun i => { checkThrows := false, checkOk := false, checkSha := "", putOk := i == 0 }

/-- A creation environment reporting a name collision, with a token that
still verifies. -/
def exCollisionEnv : CreateEnv :=
  { createOk := false
    errMessage := some "Repository creation failed: name already exists on this account"
    repo := { name := "", html_url := "" }
    verify := { ok := true, login := "alice" } }

/-- A creation environment reporting a non-collision failure. -/
def exRejectEnv : CreateEnv :=
  { createOk := false
    errMessage := some "Bad credentials"
    repo := { name := "", html_url := "" }
    verify := { ok := true, login := "alice" } }

/-- A creation environment reporting a name collision, with a token whose
re-verification fails. -/
def exCollisionBadTokenEnv : CreateEnv :=
  { createOk := false
    errMessage := some "name already exists"
    repo := { name := "", html_url := "" }
    verify := { ok := false, login := "" } }

theorem pushFilesToRepo_ok (token username repoName : String) :
    ∀ (files : List FileNode) (env : Nat → FileResp),
      (∀ i, i < files.length → (env i).putOk = true) →
      pushFilesToRepo token username repoName files env =
        (pushTrace files env, Except.ok ()) := by
  intro files
  induction files with
  | nil => intro env _; rfl
  | cons f rest ih =>
      intro env h
      have h0 : (env 0).putOk = true := h 0 (Nat.succ_pos _)
      have htail := ih (fun n => env (n + 1)) (fun i hi => h (i + 1) (Nat.succ_lt_succ hi))
      simp [pushFilesToRepo, pushTrace, h0, htail]

theorem pushFilesToRepo_fail (token username repoName : String) :
    ∀ (good : List FileNode) (bad : FileNode) (rest : List FileNode) (env : Nat → FileResp),
      (∀ i, i < good.length → (env i).putOk = true) →
      (env good.length).putOk = false →
      pushFilesToRepo token username repoName (good ++ bad :: rest) env =
        (pushTrace good env ++ fileEvents bad (env good.length),
         Except.error ("Failed to upload " ++ bad.path)) := by
  intro good
  induction good with
  | nil =>
      intro bad rest env _ hbad
      simp only [List.length_nil] at hbad
      simp [pushFilesToRepo, pushTrace, hbad]
  | cons g gs ih =>
      intro bad rest env hgood hbad
      have h0 : (env 0).putOk = true := hgood 0 (Nat.succ_pos _)
      have htail := ih bad rest (fun n => env (n + 1))
        (fun i hi => hgood (i + 1) (Nat.succ_lt_succ hi)) hbad
      simp [pushFilesToRepo, pushTrace, h0, htail]

theorem progressLogs_pushTrace :
    ∀ (files : List FileNode) (env : Nat → FileResp),
      progressLogs (pushTrace files env) =
        files.map (fun f =>
          { message := "Pushing " ++ f.path ++ "...", type := LogType.info }) := by
  intro files
  induction files with
  | nil => intro env; rfl
  | cons f rest ih =>
      intro env
      simp [pushTrace, fileEvents, progressLogs, List.filterMap_append] at *
      exact ih (fun n => env (n + 1))

/-- C1 (amended): `pushFilesToRepo` processes the files strictly in the
given order.  When every upload succeeds, its trace is exactly, per file in
input order: one progress-callback invocation, then the existence lookup,
then the upload.  When the uploads of a prefix `good` succeed and the next
file `bad` fails, the call returns the error `"Failed to upload <path>"`
(the claim's quoted message `"upload failed for <path>"` does not match the
code) and the trace stops with `bad`'s triple: no progress callback,
existence lookup, or upload occurs for any file after the failing one, and
no event undoes an earlier upload (the loop has no rollback action at
all). -/
theorem C1_push_order_and_abort (token username repoName : String)
    (files : List FileNode) (env : Nat → FileResp) :
    ((∀ i, i < files.length → (env i).putOk = true) →
       pushFilesToRepo token username repoName files env =
         (pushTrace files env, Except.ok ())) ∧
    (∀ good bad rest, files = good ++ bad :: rest →
       (∀ i, i < good.length → (env i).putOk = true) →
       (env good.length).putOk = false →
       pushFilesToRepo token username repoName files env =
         (pushTrace good env ++ fileEvents bad (env good.length),
          Except.error ("Failed to upload " ++ bad.path))) := by
  constructor
  · exact pushFilesToRepo_ok token username repoName files env
  · intro good bad rest hsplit hgood hbad
    subst hsplit
    exact pushFilesToRepo_fail token username repoName good bad rest env hgood hbad

/-- C1 counterexample: on a failing upload the thrown message is
`"Failed to upload index.html"`, which differs from the message
`"upload failed for index.html"` stated in the claim. -/
theorem C1_counterexample :
    (pushFilesToRepo "tok" "alice" "hello-world"
        [{ path := "index.html", content := "c" }]
        (fun _ => { checkThrows := false, checkOk := false, checkSha := "", putOk := false })).2
      = Except.error "Failed to upload index.html" ∧
    "Failed to upload index.html" ≠ "upload failed for index.html" :=
  ⟨rfl, by decide⟩

/-- C1 witness: a two-file push whose second upload fails yields the full
trace for the first file, the triple for the second, and the error for the
second file's path. -/
theorem C1_push_order_and_abort_witness :
    pushFilesToRepo "tok" "alice" "hello-world"
        [{ path := "a.html", content := "x" }, { path := "b.css", content := "y" }]
        exPushFail =
      (pushTrace [{ path := "a.html", content := "x" }] exPushFail ++
         fileEvents { path := "b.css", content := "y" } (exPushFail 1),
       Except.error ("Failed to upload " ++ "b.css")) :=
  (C1_push_order_and_abort "tok" "alice" "hello-world"
      [{ path := "a.html", content := "x" }, { path := "b.css", content := "y" }]
      exPushFail).2
    [{ path := "a.html", content := "x" }] { path := "b.css", content := "y" } []
    rfl (fun i hi => by rw [Nat.lt_one_iff.mp hi]; rfl) rfl

/-- C2: when the creation response is not ok and its error message contains
`"name already exists"`, `createRepository` returns (without raising) a repo
whose URL is built from the verified account identifier and the requested
name; any other non-ok response raises an error carrying the upstream
message.  ("The verified account identifier" presupposes that the
verification performed on this path succeeds; its failure case is the
subject of C10.) -/
theorem C2_createRepository_collision (token name description : String)
    (env : CreateEnv) (m : String)
    (hOk : env.createOk = false)
    (hMsg : env.errMessage = some m) :
    (containsSubstr m "name already exists" = true →
       env.verify.ok = true →
       createRepository token name description env =
         Except.ok { name := name,
                     html_url := "https://github.com/" ++ env.verify.login ++ "/" ++ name }) ∧
    (containsSubstr m "name already exists" = false →
       createRepository token name description env =
         Except.error ("GitHub Create Repo Error: " ++ m)) := by
  constructor
  · intro hColl hVer
    simp [createRepository, verifyGithubToken, hOk, hMsg, hColl, hVer]
  · intro hColl
    simp [createRepository, errMessageText, hOk, hMsg, hColl]

/-- C2 witness: a collision response yields the fallback URL for the
verified login `alice`; a `"Bad credentials"` response raises with the
upstream message. -/
theorem C2_createRepository_collision_witness :
    createRepository "tok" "hello-world" "desc" exCollisionEnv =
      Except.ok { name := "hello-world",
                  html_url := "https://github.com/" ++ exCollisionEnv.verify.login
                                ++ "/" ++ "hello-world" } ∧
    createRepository "tok" "hello-world" "desc" exRejectEnv =
      Except.error ("GitHub Create Repo Error: " ++ "Bad credentials") :=
  ⟨(C2_createRepository_collision "tok" "hello-world" "desc" exCollisionEnv
      "Repository creation failed: name already exists on this account" rfl rfl).1
      (by decide) rfl,
   (C2_createRepository_collision "tok" "hello-world" "desc" exRejectEnv
      "Bad credentials" rfl rfl).2 (by decide)⟩

/-- C10: on the name-collision fallback path `createRepository` performs a
second token verification; when that verification fails it raises
`"Invalid GitHub Token"` instead of returning the fallback repository
URL. -/
theorem C10_collision_reverify_failure (token name description : String)
    (env : CreateEnv) (m : String)
    (hOk : env.createOk = false)
    (hMsg : env.errMessage = some m)
    (hColl : containsSubstr m "name already exists" = true)
    (hVer : env.verify.ok = false) :
    createRepository token name description env = Except.error "Invalid GitHub Token" := by
  simp [createRepository, verifyGithubToken, hOk, hMsg, hColl, hVer]

/-- C10 witness: a collision response together with a failing second
verification raises `"Invalid GitHub Token"`. -/
theorem C10_collision_reverify_failure_witness :
    createRepository "tok" "hello-world" "desc" exCollisionBadTokenEnv =
      Except.error "Invalid GitHub Token" :=
  C10_collision_reverify_failure "tok" "hello-world" "desc" exCollisionBadTokenEnv
    "name already exists" rfl rfl (by decide) rfl

theorem handleDeploy_no_project (env : DeployEnv) (s : AppState)
    (hp : s.project = none) : handleDeploy env s = s := by
  simp [handleDeploy, hp]

theorem handleDeploy_no_username (env : DeployEnv) (s : AppState) (p : GeneratedProject)
    (hp : s.project = some p) (hu : s.config.githubUsername = "") :
    handleDeploy env s = s := by
  simp [handleDeploy, hp, hu]

theorem handleDeploy_create_error (env : DeployEnv) (s : AppState) (p : GeneratedProject)
    (e : String)
    (hp : s.project = some p) (hu : ¬ s.config.githubUsername = "")
    (hC : createRepository s.config.githubToken p.name p.description env.create =
            Except.error e) :
    handleDeploy env s =
      { s with step := Step.review, isLoading := false,
               logs := s.logs ++
                 [{ message := "Creating GitHub repository...", type := LogType.info },
                  { message := e, type := LogType.error }] } := by
  simp [handleDeploy, hp, hu, hC, addLog]

theorem handleDeploy_push_error (env : DeployEnv) (s : AppState) (p : GeneratedProject)
    (repo : Repo) (evs : List PushEvent) (e : String)
    (hp : s.project = some p) (hu : ¬ s.config.githubUsername = "")
    (hC : createRepository s.config.githubToken p.name p.description env.create =
            Except.ok repo)
    (hP : pushFilesToRepo s.config.githubToken s.config.githubUsername p.name p.files
            env.push = (evs, Except.error e)) :
    handleDeploy env s =
      { s with step := Step.review, isLoading := false,
               repoUrl := some repo.html_url,
               logs := s.logs ++
                 [{ message := "Creating GitHub repository...", type := LogType.info },
                  { message := "Repository created: " ++ repo.html_url,
                    type := LogType.success }] ++
                 progressLogs evs ++
                 [{ message := e, type := LogType.error }] } := by
  simp [handleDeploy, hp, hu, hC, hP, addLog]

theorem handleDeploy_skip_vercel (env : DeployEnv) (s : AppState) (p : GeneratedProject)
    (repo : Repo) (evs : List PushEvent)
    (hp : s.project = some p) (hu : ¬ s.config.githubUsername = "")
    (hv : s.config.vercelToken = "")
    (hC : createRepository s.config.githubToken p.name p.description env.create =
            Except.ok repo)
    (hP : pushFilesToRepo s.config.githubToken s.config.githubUsername p.name p.files
            env.push = (evs, Except.ok ())) :
    handleDeploy env s =
      { s with step := Step.success, isLoading := false,
               repoUrl := some repo.html_url,
               logs := s.logs ++
                 [{ message := "Creating GitHub repository...", type := LogType.info },
                  { message := "Repository created: " ++ repo.html_url,
                    type := LogType.success }] ++
                 progressLogs evs ++
                 [{ message := "All files pushed to GitHub.", type := LogType.success },
                  { message := "Skipping Vercel deployment (no token provided).",
                    type := LogType.warning }] } := by
  simp [handleDeploy, hp, hu, hv, hC, hP, addLog]

theorem handleDeploy_vercel_error (env : DeployEnv) (s : AppState) (p : GeneratedProject)
    (repo : Repo) (evs : List PushEvent) (e : String)
    (hp : s.project = some p) (hu : ¬ s.config.githubUsername = "")
    (hv : ¬ s.config.vercelToken = "")
    (hC : createRepository s.config.githubToken p.name p.description env.create =
            Except.ok repo)
    (hP : pushFilesToRepo s.config.githubToken s.config.githubUsername p.name p.files
            env.push = (evs, Except.ok ()))
    (hV : env.vercel = Except.error e) :
    handleDeploy env s =
      { s with step := Step.review, isLoading := false,
               repoUrl := some repo.html_url,
               logs := s.logs ++
                 [{ message := "Creating GitHub repository...", type := LogType.info },
                  { message := "Repository created: " ++ repo.html_url,
                    type := LogType.success }] ++
                 progressLogs evs ++
                 [{ message := "All files pushed to GitHub.", type := LogType.success },
                  { message := "Triggering Vercel deployment...", type := LogType.info },
                  { message := e, type := LogType.error }] } := by
  simp [handleDeploy, hp, hu, hv, hC, hP, hV, addLog]

theorem handleDeploy_vercel_ok (env : DeployEnv) (s : AppState) (p : GeneratedProject)
    (repo : Repo) (evs : List PushEvent)
    (hp : s.project = some p) (hu : ¬ s.config.githubUsername = "")
    (hv : ¬ s.config.vercelToken = "")
    (hC : createRepository s.config.githubToken p.name p.description env.create =
            Except.ok repo)
    (hP : pushFilesToRepo s.config.githubToken s.config.githubUsername p.name p.files
            env.push = (evs, Except.ok ()))
    (hV : env.vercel = Except.ok ()) :
    handleDeploy env s =
      { s with step := Step.success, isLoading := false,
               repoUrl := some repo.html_url,
               deploymentUrl := some ("https://" ++ p.name ++ ".vercel.app"),
               logs := s.logs ++
                 [{ message := "Creating GitHub repository...", type := LogType.info },
                  { message := "Repository created: " ++ repo.html_url,
                    type := LogType.success }] ++
                 progressLogs evs ++
                 [{ message := "All files pushed to GitHub.", type := LogType.success },
                  { message := "Triggering Vercel deployment...", type := LogType.info },
                  { message := "Vercel project created/linked.", type := LogType.success },
                  { message :=
                      "Deployment queued. Visit https://vercel.com/dashboard to see progress.",
                    type := LogType.warning }] } := by
  simp [handleDeploy, hp, hu, hv, hC, hP, hV, addLog]

/-- C3 (amended): when the prompt is not blank and the generation client
fails, `handleGenerate` leaves the workflow in stage Prompt (never
Generating) and stores no new project: the stored project afterwards is
exactly the stored project before the call.  (A state that held no project
still holds none; but a project stored by an earlier generation survives
the failed attempt, contrary to the claim's "including any project stored
before the call" — the failure path only logs and reverts the stage.) -/
theorem C3_generate_failure (s : AppState) (e : String)
    (h : isBlank s.prompt = false) :
    (handleGenerate (Except.error e) s).step = Step.prompt ∧
    (handleGenerate (Except.error e) s).project = s.project := by
  simp [handleGenerate, h, addLog]

/-- C3 counterexample: a failed generation at a prompt-stage state that
still holds the previously generated project leaves that project stored,
so a project is stored in the controller state afterwards. -/
theorem C3_counterexample :
    (handleGenerate (Except.error "Gemini API error") exPromptWithProject).project
      = some exProject ∧
    some exProject ≠ (none : Option GeneratedProject) :=
  ⟨by decide, by decide⟩

/-- C3 witness: a failed generation on a fresh prompt-stage state ends in
stage Prompt with the project slot as before (empty). -/
theorem C3_generate_failure_witness :
    (handleGenerate (Except.error "Gemini API error")
        { initialState with step := Step.prompt, prompt := "a hello world page" }).step
      = Step.prompt ∧
    (handleGenerate (Except.error "Gemini API error")
        { initialState with step := Step.prompt, prompt := "a hello world page" }).project
      = { initialState with step := Step.prompt, prompt := "a hello world page" }.project :=
  C3_generate_failure { initialState with step := Step.prompt, prompt := "a hello world page" }
    "Gemini API error" (by decide)

/-- C4 (amended): the Reset button returns the workflow to stage Prompt but
discards nothing: the stored project, the deployment URL, the repository
URL and the log sequence are all left in place (the project slot is only
overwritten by a later successful generation, and the URLs are never
cleared).  Navigating back to Config via the header Settings button is
available regardless of the current stage and likewise changes only the
stage. -/
theorem C4_reset_and_settings (s : AppState) :
    (resetBtn s).step = Step.prompt ∧
    (resetBtn s).project = s.project ∧
    (resetBtn s).deploymentUrl = s.deploymentUrl ∧
    (resetBtn s).repoUrl = s.repoUrl ∧
    (resetBtn s).logs = s.logs ∧
    (settingsBtn s).step = Step.config ∧
    (settingsBtn s).project = s.project := by
  simp [resetBtn, settingsBtn]

/-- C4 counterexample: at a Success-stage state holding a project and a
deployment URL, the Reset button returns to Prompt but leaves both in
place, contradicting "the stored project and deployment state are
discarded". -/
theorem C4_counterexample :
    (resetBtn exSuccessState).step = Step.prompt ∧
    (resetBtn exSuccessState).project = some exProject ∧
    (resetBtn exSuccessState).deploymentUrl = some "https://hello-world.vercel.app" ∧
    (resetBtn exSuccessState).repoUrl = some "https://github.com/alice/hello-world" :=
  ⟨rfl, rfl, rfl, rfl⟩

/-- C7: `handleSaveConfig` calls the credential verification; on success it
merges the resolved login into the configuration, persists the merged
configuration, appends one success log entry and advances the stage to
Prompt; on failure it appends one error log entry and leaves the stage, the
configuration and the persisted record unchanged. -/
theorem C7_saveConfiguration (s : AppState) (env : VerifyResp) :
    (env.ok = true →
       (handleSaveConfig env s).config = { s.config with githubUsername := env.login } ∧
       (handleSaveConfig env s).persisted =
         some { s.config with githubUsername := env.login } ∧
       (handleSaveConfig env s).logs =
         s.logs ++ [{ message := "Authenticated as GitHub user: " ++ env.login,
                      type := LogType.success }] ∧
       (handleSaveConfig env s).step = Step.prompt) ∧
    (env.ok = false →
       (handleSaveConfig env s).logs =
         s.logs ++ [{ message := "Invalid GitHub Token", type := LogType.error }] ∧
       (handleSaveConfig env s).step = s.step ∧
       (handleSaveConfig env s).config = s.config ∧
       (handleSaveConfig env s).persisted = s.persisted) := by
  constructor
  · intro h
    simp [handleSaveConfig, verifyGithubToken, h, addLog]
  · intro h
    simp [handleSaveConfig, verifyGithubToken, h, addLog]

/-- C7 witness: a successful verification advances the initial state to the
Prompt stage; a failed one leaves it at the Config stage. -/
theorem C7_saveConfiguration_witness :
    (handleSaveConfig { ok := true, login := "alice" } initialState).step = Step.prompt ∧
    (handleSaveConfig { ok := false, login := "" } initialState).step = initialState.step :=
  ⟨((C7_saveConfiguration initialState { ok := true, login := "alice" }).1 rfl).2.2.2,
   ((C7_saveConfiguration initialState { ok := false, login := "" }).2 rfl).2.1⟩

/-- C8: for a prompt consisting entirely of whitespace (including the empty
string) `handleGenerate` returns the state unchanged, so the workflow
stage, the stored project and the log sequence are all unchanged. -/
theorem C8_generate_blank_noop (s : AppState) (r : Except String GeneratedProject)
    (h : isBlank s.prompt = true) :
    handleGenerate r s = s := by
  simp [handleGenerate, h]

/-- C8 witness: a whitespace-only prompt makes a (successful-environment)
generation call a no-op on a review-stage state. -/
theorem C8_generate_blank_noop_witness :
    handleGenerate (Except.ok exProject) { exReviewState with prompt := "   " }
      = { exReviewState with prompt := "   " } :=
  C8_generate_blank_noop { exReviewState with prompt := "   " }
    (Except.ok exProject) (by decide)

/-- C5: when a project and a resolved account identifier are present and
some step of the deploy (repository creation, file upload, or hosting
registration) raises — `deployFirstError` names the thrown message —
`handleDeploy` reverts the stage to Review, leaves every
previously-appended log entry intact (the old log is a prefix of the new
one) and appends the error as a final error entry, and rolls nothing back:
the deployment URL is exactly as before and the repository URL is either as
before or set to the created repository's URL, never cleared. -/
theorem C5_deploy_failure (s : AppState) (p : GeneratedProject) (env : DeployEnv)
    (e : String)
    (hp : s.project = some p)
    (hu : ¬ s.config.githubUsername = "")
    (hf : deployFirstError s.config p env = some e) :
    (handleDeploy env s).step = Step.review ∧
    (∃ mid, (handleDeploy env s).logs =
       s.logs ++ mid ++ [{ message := e, type := LogType.error }]) ∧
    (handleDeploy env s).deploymentUrl = s.deploymentUrl ∧
    ((handleDeploy env s).repoUrl = s.repoUrl ∨
       ∃ u, (handleDeploy env s).repoUrl = some u) := by
  unfold deployFirstError at hf
  rcases hC : createRepository s.config.githubToken p.name p.description env.create
    with eC | repo
  · rw [hC] at hf
    simp only [Option.some.injEq] at hf
    subst hf
    rw [handleDeploy_create_error env s p eC hp hu hC]
    exact ⟨rfl,
      ⟨[{ message := "Creating GitHub repository...", type := LogType.info }], by simp⟩,
      rfl, Or.inl rfl⟩
  · rw [hC] at hf
    rcases hP : pushFilesToRepo s.config.githubToken s.config.githubUsername p.name
        p.files env.push with ⟨evs, pres⟩
    rw [hP] at hf
    rcases pres with eP | ⟨⟩
    · simp only [Option.some.injEq] at hf
      subst hf
      rw [handleDeploy_push_error env s p repo evs eP hp hu hC hP]
      exact ⟨rfl,
        ⟨[{ message := "Creating GitHub repository...", type := LogType.info },
          { message := "Repository created: " ++ repo.html_url,
            type := LogType.success }] ++ progressLogs evs, by simp⟩,
        rfl, Or.inr ⟨repo.html_url, rfl⟩⟩
    · simp only at hf
      by_cases hv : s.config.vercelToken = ""
      · rw [if_pos hv] at hf
        exact absurd hf (by simp)
      · rw [if_neg hv] at hf
        rcases hV : env.vercel with eV | ⟨⟩
        · rw [hV] at hf
          simp only [Option.some.injEq] at hf
          subst hf
          rw [handleDeploy_vercel_error env s p repo evs eV hp hu hv hC hP hV]
          exact ⟨rfl,
            ⟨[{ message := "Creating GitHub repository...", type := LogType.info },
              { message := "Repository created: " ++ repo.html_url,
                type := LogType.success }] ++ progressLogs evs ++
              [{ message := "All files pushed to GitHub.", type := LogType.success },
               { message := "Triggering Vercel deployment...", type := LogType.info }],
              by simp⟩,
            rfl, Or.inr ⟨repo.html_url, rfl⟩⟩
        · rw [hV] at hf
          simp at hf

/-- C5 witness: a deploy whose repository creation succeeds and whose first
file upload fails reverts a review-stage state to Review, keeps the old log
as a prefix with the error appended last, leaves the deployment URL as
before, and sets (rather than rolls back) the repository URL. -/
theorem C5_deploy_failure_witness :
    (handleDeploy exDeployPushFail exReviewState).step = Step.review ∧
    (∃ mid, (handleDeploy exDeployPushFail exReviewState).logs =
       exReviewState.logs ++ mid ++
         [{ message := "Failed to upload index.html", type := LogType.error }]) ∧
    (handleDeploy exDeployPushFail exReviewState).deploymentUrl =
      exReviewState.deploymentUrl ∧
    ((handleDeploy exDeployPushFail exReviewState).repoUrl = exReviewState.repoUrl ∨
       ∃ u, (handleDeploy exDeployPushFail exReviewState).repoUrl = some u) :=
  C5_deploy_failure exReviewState exProject exDeployPushFail
    "Failed to upload index.html" rfl (by decide) (by decide)

/-- C6 (amended): from a state with a stored project, a resolved account
identifier and no Vercel token, a deploy whose repository creation and file
uploads all succeed ends in stage Success with the repository URL set and
the deployment URL exactly as before the call (so unset whenever it was
unset before — the skip branch never writes it; the claim's unconditional
"deployment URL unset" fails when an earlier deploy had set it), and the
appended log entries are exactly the creation pair, one progress entry per
file, the all-pushed entry and the skip entry — of which, provided no other
message happens to contain the phrase, exactly one contains
`"Skipping Vercel deployment"`. -/
theorem C6_deploy_no_hosting_token (s : AppState) (p : GeneratedProject) (repo : Repo)
    (env : DeployEnv)
    (hp : s.project = some p)
    (hu : ¬ s.config.githubUsername = "")
    (hv : s.config.vercelToken = "")
    (hc : createRepository s.config.githubToken p.name p.description env.create =
            Except.ok repo)
    (hpush : ∀ i, i < p.files.length → (env.push i).putOk = true) :
    (handleDeploy env s).step = Step.success ∧
    (handleDeploy env s).repoUrl = some repo.html_url ∧
    (handleDeploy env s).deploymentUrl = s.deploymentUrl ∧
    (handleDeploy env s).logs = s.logs ++
      ({ message := "Creating GitHub repository...", type := LogType.info } ::
       { message := "Repository created: " ++ repo.html_url, type := LogType.success } ::
       (p.files.map (fun f =>
          { message := "Pushing " ++ f.path ++ "...", type := LogType.info }) ++
        [{ message := "All files pushed to GitHub.", type := LogType.success },
         { message := "Skipping Vercel deployment (no token provided).",
           type := LogType.warning }])) ∧
    (containsSubstr ("Repository created: " ++ repo.html_url)
        "Skipping Vercel deployment" = false →
     (∀ f ∈ p.files,
        containsSubstr ("Pushing " ++ f.path ++ "...") "Skipping Vercel deployment" = false) →
     ((handleDeploy env s).logs.drop s.logs.length).countP
        (fun l => containsSubstr l.message "Skipping Vercel deployment") = 1) := by
  have hP := pushFilesToRepo_ok s.config.githubToken s.config.githubUsername p.name
      p.files env.push hpush
  have hprog := progressLogs_pushTrace p.files env.push
  rw [handleDeploy_skip_vercel env s p repo (pushTrace p.files env.push) hp hu hv hc hP]
  refine ⟨rfl, rfl, rfl, ?_, ?_⟩
  · simp [hprog]
  · intro h1 h2
    have hz : (p.files.map (fun f =>
        ({ message := "Pushing " ++ f.path ++ "...", type := LogType.info } : LogEntry))).countP
        (fun l => containsSubstr l.message "Skipping Vercel deployment") = 0 := by
      rw [List.countP_eq_zero]
      intro l hl
      rw [List.mem_map] at hl
      obtain ⟨f, hf, rfl⟩ := hl
      simp [h2 f hf]
    have c1 : containsSubstr "Creating GitHub repository..."
        "Skipping Vercel deployment" = false := by decide
    have c2 : containsSubstr "All files pushed to GitHub."
        "Skipping Vercel deployment" = false := by decide
    have c3 : containsSubstr "Skipping Vercel deployment (no token provided)."
        "Skipping Vercel deployment" = true := by decide
    simp [hprog, List.drop_left, List.countP_append, List.countP_cons, hz, h1, c1, c2, c3]

/-- C6 counterexample: from a reachable-shaped state whose deployment URL
is still set from an earlier run, the same no-token deploy ends in Success
with the deployment URL still set, contradicting "the deployment URL
unset". -/
theorem C6_counterexample :
    (handleDeploy exDeployOk exReviewStale).step = Step.success ∧
    (handleDeploy exDeployOk exReviewStale).deploymentUrl = some "https://stale.vercel.app" ∧
    some "https://stale.vercel.app" ≠ (none : Option String) :=
  ⟨by decide, by decide, by decide⟩

/-- C6 witness: the spec's scenario — review-stage state, hello-world
project, no Vercel token, everything succeeds — ends in Success with the
repository URL set and the deployment URL unchanged (here: unset). -/
theorem C6_deploy_no_hosting_token_witness :
    (handleDeploy exDeployOk exReviewState).step = Step.success ∧
    (handleDeploy exDeployOk exReviewState).repoUrl = some exCreateOk.repo.html_url ∧
    (handleDeploy exDeployOk exReviewState).deploymentUrl = exReviewState.deploymentUrl ∧
    ((handleDeploy exDeployOk exReviewState).logs.drop exReviewState.logs.length).countP
        (fun l => containsSubstr l.message "Skipping Vercel deployment") = 1 :=
  have h := C6_deploy_no_hosting_token exReviewState exProject exCreateOk.repo exDeployOk
    rfl (by decide) rfl rfl (fun _ _ => rfl)
  ⟨h.1, h.2.1, h.2.2.1, h.2.2.2.2 (by decide)
    (fun f hf => by
      simp only [exProject, List.mem_singleton] at hf
      subst hf
      decide)⟩

/-- C9: in every state reachable by the controller's operations from the
initial state, the Success stage implies the repository URL is set:
the stage only becomes Success inside a successful `handleDeploy`, after
the repository URL has been stored, and no operation ever clears it. -/
theorem C9_success_implies_repoUrl (s : AppState) (hs : Reachable s)
    (hstep : s.step = Step.success) : s.repoUrl ≠ none := by
  revert hstep
  induction hs with
  | init =>
      intro h
      simp [initialState] at h
  | @load s c hr hpers ih =>
      intro h
      simp [loadSaved] at h
  | @editConfig s c hr ih =>
      intro h
      simp [AutoDeploy.editConfig] at h ⊢
      exact ih h
  | @editPrompt s t hr ih =>
      intro h
      simp [AutoDeploy.editPrompt] at h ⊢
      exact ih h
  | @saveConfig s env hr ih =>
      intro h
      by_cases hok : env.ok = true
      · simp [handleSaveConfig, verifyGithubToken, hok, addLog] at h
      · simp [handleSaveConfig, verifyGithubToken, hok, addLog] at h ⊢
        exact ih h
  | @generate s genResult hr ih =>
      intro h
      by_cases hb : isBlank s.prompt = true
      · simp [handleGenerate, hb] at h ⊢
        exact ih h
      · rcases genResult with eg | g
        · simp [handleGenerate, hb, addLog] at h
        · simp [handleGenerate, hb, addLog] at h
  | @deploy s env hr ih =>
      intro h
      rcases hp : s.project with _ | p
      · rw [handleDeploy_no_project env s hp] at h ⊢
        exact ih h
      · by_cases hu : s.config.githubUsername = ""
        · rw [handleDeploy_no_username env s p hp hu] at h ⊢
          exact ih h
        · rcases hC : createRepository s.config.githubToken p.name p.description env.create
            with eC | repo
          · rw [handleDeploy_create_error env s p eC hp hu hC] at h
            simp at h
          · rcases hP : pushFilesToRepo s.config.githubToken s.config.githubUsername
                p.name p.files env.push with ⟨evs, pres⟩
            rcases pres with eP | ⟨⟩
            · rw [handleDeploy_push_error env s p repo evs eP hp hu hC hP] at h
              simp at h
            · by_cases hv : s.config.vercelToken = ""
              · rw [handleDeploy_skip_vercel env s p repo evs hp hu hv hC hP]
                simp
              · rcases hV : env.vercel with eV | ⟨⟩
                · rw [handleDeploy_vercel_error env s p repo evs eV hp hu hv hC hP hV] at h
                  simp at h
                · rw [handleDeploy_vercel_ok env s p repo evs hp hu hv hC hP hV]
                  simp
  | @reset s hr ih =>
      intro h
      simp [resetBtn] at h
  | @settings s hr ih =>
      intro h
      simp [settingsBtn] at h

/-- C9 witness: the concrete run configure → prompt → successful generate →
successful deploy reaches a Success-stage state, and its repository URL is
set. -/
theorem C9_success_implies_repoUrl_witness :
    (handleDeploy exDeployOk (handleGenerate (Except.ok exProject)
        (AutoDeploy.editPrompt "a hello world page"
          (AutoDeploy.editConfig exConfig initialState)))).repoUrl ≠ none :=
  C9_success_implies_repoUrl _
    (Reachable.deploy exDeployOk (Reachable.generate (Except.ok exProject)
      (Reachable.editPrompt "a hello world page"
        (Reachable.editConfig exConfig Reachable.init))))
    (by decide)

end AutoDeploy
